import Mathlib

/-!
Verification of the delve_bot Telegram content bot (`src/bot.py`) against its
specification. The Python handlers are shallowly embedded as pure Lean
functions: the in-memory `user_sessions` dict becomes an explicit store value,
and each outbound provider call (Tavily search, Gemini generation, the
Hugging Face image endpoint, Telegram sends/edits) is represented by an
environment-supplied outcome parameter plus a record of the effects the
handler produced.
-/

namespace DelveBot

/-- A search-result record from the search provider: the Python result dicts
are read through keys `title`, `url`, `content` (bot.py lines 126-130, 205). -/
structure SearchResult where
  title : String
  url : String
  content : String
deriving DecidableEq

/-- Per-chat session record stored in `user_sessions[chat_id]`.
`handle_search` stores `results`, `search_query` and `timestamp`
(bot.py lines 117-121); the `content` key is absent until a generation step
writes it (lines 236, 364), modelled as an `Option`. -/
structure Session where
  results : List SearchResult
  search_query : String
  content : Option String
  timestamp : String
deriving DecidableEq

/-- The global `user_sessions` mapping, chat id to session (bot.py line 44). -/
abbrev Store := Int → Option Session

/-- A store with no sessions. -/
def emptyStore : Store := fun _ => none

/-- `user_sessions[chat_id] = s`. -/
def setSession (st : Store) (chatId : Int) (s : Session) : Store :=
  fun c => if c = chatId then some s else st c

/-- Python `s.split(sep, 1)` on the character list: `none` when `sep` does not
occur (so that indexing `[1]` raises `IndexError`), otherwise the pieces
before and after the first occurrence of `sep`. -/
def splitOnceAux (sep : Char) : List Char → Option (List Char × List Char)
  | [] => none
  | c :: cs =>
    if c = sep then some ([], cs)
    else
      match splitOnceAux sep cs with
      | none => none
      | some p => some (c :: p.1, p.2)

/-- Python `s.split(sep, 1)`, keeping only whether a second piece exists and
what the two pieces are. -/
def pySplitOnce (sep : Char) (s : String) : Option (String × String) :=
  match splitOnceAux sep s.data with
  | none => none
  | some p => some (⟨p.1⟩, ⟨p.2⟩)

/-- Python `s.strip()`: drop whitespace from both ends. -/
def pyStrip (s : String) : String :=
  ⟨((s.data.dropWhile Char.isWhitespace).reverse.dropWhile Char.isWhitespace).reverse⟩

/-- Python `s[:n]`: the first `n` characters. -/
def pySlice (s : String) (n : Nat) : String := ⟨s.data.take n⟩

/-- Python `s.startswith(p)`. -/
def pyStartsWith (p s : String) : Bool := List.isPrefixOf p.data s.data

/-- An inline-keyboard button: either a link button or a callback button. -/
inductive Button
  | url (text link : String)
  | callback (text cbdata : String)
deriving DecidableEq

/-- A `bot.edit_message_text` call: new text plus attached keyboard. -/
structure Edit where
  text : String
  buttons : List Button
deriving DecidableEq

/-- Outcome of the single `tavily.search` call: the provider's `results`
list, or a raised exception (bot.py lines 93, 111). -/
inductive SearchOutcome
  | ok (results : List SearchResult)
  | err
deriving DecidableEq

/-- Observable effects of one `handle_search` run. `searchCalled` records
whether control reached the `tavily.search` call. -/
structure SearchEffects where
  searchCalled : Bool := false
  sentMessages : List String := []
  replies : List String := []
  edit : Option Edit := none
deriving DecidableEq

def usageMsg : String := "⚠️ Please provide a search query. Usage: /search [your query]"

def searchingMsg : String := "🔍 Searching the web..."

def searchFailedMsg : String := "⚠️ Search failed. Please try again later."

def noResultsMsg : String := "⚠️ No relevant results found. Try a different query."

/-- The result cap: `search_response.get('results', [])[:25]` (bot.py line 98). -/
def cappedResults (results : List SearchResult) : List SearchResult :=
  results.take 25

/-- One link button per result (bot.py lines 126-130). -/
def resultButton (r : SearchResult) : Button :=
  .url ("🌐 " ++ pySlice r.title 20 ++ "...") r.url

/-- The edited results message (bot.py lines 138-146). -/
def resultsEdit (results : List SearchResult) : Edit :=
  { text := "*Web Search Results:*\n" ++
      String.intercalate "\n\n"
        (results.map fun r => "• [" ++ r.title ++ "](" ++ r.url ++ ")")
    buttons := results.map resultButton ++
      [.callback "✅ Generate Content" "generate_content"] }

/-- `handle_search` (bot.py lines 79-157). `text` is `message.text`,
`outcome` the environment's answer to the `tavily.search` call, and `now`
stands for `datetime.now().isoformat()` at session-store time. The
`IndexError` raised by `message.text.split(' ', 1)[1]` when the text holds no
space is the `none` branch (caught at line 149). -/
def handle_search (st : Store) (chatId : Int) (text : String)
    (outcome : SearchOutcome) (now : String) : Store × SearchEffects :=
  match pySplitOnce ' ' text with
  | none => (st, { replies := [usageMsg] })
  | some p =>
    match outcome with
    | .err =>
      (st, { searchCalled := true, sentMessages := [searchingMsg],
             replies := [searchFailedMsg] })
    | .ok resp =>
      let results := cappedResults resp
      if results.isEmpty then
        (st, { searchCalled := true, sentMessages := [searchingMsg],
               replies := [noResultsMsg] })
      else
        (setSession st chatId
           { results := results, search_query := pyStrip p.2,
             content := none, timestamp := now },
         { searchCalled := true, sentMessages := [searchingMsg],
           edit := some (resultsEdit results) })

/-- The context string assembled for the generation prompt:
Python `"\n\n".join([f"Source {i+1}:\n{res.get('content', '')}" for i, res in
enumerate(results)])` (bot.py lines 205 and 333, identical in both modes). -/
def buildContext (results : List SearchResult) : String :=
  String.intercalate "\n\n"
    (results.enum.map fun p => "Source " ++ toString (p.1 + 1) ++ ":\n" ++ p.2.content)

/-- The initial-mode prompt template up to the context hole (bot.py line 209). -/
def initialTemplateA : String :=
  "Create engaging social media content based on these research findings:\n            \n            "

/-- The initial-mode prompt template after the context hole (bot.py lines 212-218). -/
def initialTemplateB : String :=
  "\n            \n            Format for these platforms:\n            1. Twitter: 280-character post with 3 relevant hashtags\n            2. Instagram: Caption under 2200 chars with 5 emojis\n            3. LinkedIn: Professional post under 3000 chars with key insights\n            \n            Structure with clear platform headings. Ensure factual accuracy."

/-- The regenerate-mode prompt template up to the context hole (bot.py lines 337-340). -/
def regenTemplateA : String :=
  "Regenerate the social media content with a different style:\n            \n            Original context:\n            "

/-- The regenerate-mode prompt template after the context hole (bot.py lines 341-346). -/
def regenTemplateB : String :=
  "\n            \n            Requirements:\n            - More casual/informal tone\n            - Use different emojis/hashtags\n            - Alternative structure\n            - Keep platform-specific formatting"

/-- The initial-mode Gemini prompt (bot.py lines 209-218): the assembled
context is embedded truncated to its first 5000 characters. -/
def initialPrompt (results : List SearchResult) : String :=
  initialTemplateA ++ pySlice (buildContext results) 5000 ++ initialTemplateB

/-- The regenerate-mode Gemini prompt (bot.py lines 337-346), with the same
5000-character truncation of the context. -/
def regeneratePrompt (results : List SearchResult) : String :=
  regenTemplateA ++ pySlice (buildContext results) 5000 ++ regenTemplateB

/-- Outcome of a `gemini.generate_content(prompt)` call: the value of
`response.text`, or a raised exception (bot.py lines 224, 260). -/
inductive GenOutcome
  | ok (text : String)
  | err
deriving DecidableEq

/-- Opaque binary image payload (`response.content`). -/
abbrev ImageBytes := List Nat

/-- Outcome of the `requests.post` call inside `generate_image`: an HTTP
reply with status code and body, or a transport-level exception / timeout
(bot.py lines 64, 75). -/
inductive HttpReply
  | resp (status : Nat) (body : ImageBytes)
  | timeoutOrError
deriving DecidableEq

/-- `generate_image` (bot.py lines 56-77): returns the raw `response.content`
iff `response.status_code == 200`, `None` on any other status, and `None`
when the request raises. -/
def generate_image (reply : HttpReply) : Option ImageBytes :=
  match reply with
  | .resp status body => if status = 200 then some body else none
  | .timeoutOrError => none

def sessionExpiredMsg : String := "❌ Session expired. Start a new search."

def missingDataMsg : String := "❌ Missing data. Start new search."

def genFailedMsg : String := "⚠️ Content generation failed"

def regenFailedMsg : String := "⚠️ Regeneration failed"

def genericErrorMsg : String := "⚠️ An error occurred"

def tooLongMsg : String := "⚠️ Message too long. Try a different query."

def regenTooLongMsg : String := "⚠️ Regenerated content too long"

def unknownCmdMsg : String := "⚠️ Unknown command"

def noContentMsg : String := "❌ No content available"

def imageFailedMsg : String := "⚠️ Image generation failed"

def sendPhotoFailedMsg : String := "⚠️ Failed to send image"

/-- The platform-selection keyboard (bot.py lines 179-190). -/
def platformMenu : Edit :=
  { text := "Select the platform for which you want to generate content:"
    buttons := [.callback "🐦 Twitter" "platform_twitter",
                .callback "📸 Instagram" "platform_instagram",
                .callback "🔗 LinkedIn" "platform_linkedin"] }

/-- The image-prompt-choice keyboard (bot.py lines 269-279). -/
def thumbnailMenu : Edit :=
  { text := "Choose an option for image generation:"
    buttons := [.callback "🖼️ Default Prompt" "default_prompt",
                .callback "🖼️ Custom Prompt" "custom_prompt"] }

/-- The rendered generated content with regenerate/post buttons
(bot.py lines 240-254). -/
def contentEdit (text : String) : Edit :=
  { text := "*Generated Content:*\n\n" ++ text
    buttons := [.callback "🔄 Regenerate" "regenerate",
                .callback "📤 Post" "post_content"] }

/-- The rendered revised content after a regenerate (bot.py lines 368-382);
here the Post button carries `create_thumbnail`. -/
def revisedEdit (text : String) : Edit :=
  { text := "*Revised Content:*\n\n" ++ text
    buttons := [.callback "🔄 Regenerate" "regenerate",
                .callback "📤 Post" "create_thumbnail"] }

/-- A `bot.send_photo` call (bot.py lines 306-312). -/
structure Photo where
  payload : ImageBytes
  caption : String
  buttons : List Button
deriving DecidableEq

/-- Observable effects of one `handle_all_callbacks` run: texts answered via
`answer_callback_query`, message edits, photos sent, and the prompts passed
to the text-generation and image providers (empty list = provider not
called). -/
structure CallbackEffects where
  answers : List String := []
  edits : List Edit := []
  photos : List Photo := []
  geminiPrompts : List String := []
  imagePrompts : List String := []
deriving DecidableEq

/-- `handle_all_callbacks` (bot.py lines 159-400).

`gen` is the environment's answer to the (at most one) Gemini call, `editOk`
whether the `bot.edit_message_text` rendering the generated content succeeds
(the inner `try/except` at lines 247-258 and 375-386), `now` the timestamp
taken when content is stored.

Note on bot.py line 192: in the source, the
`elif call.data.startswith('platform_')` line is mis-indented — it sits
inside the body of the `if call.data == 'generate_content'` branch, and its
own body is at the same indentation as the `elif` itself, so the file does
not parse as Python. The branch is embedded here at its evidently intended
position, as a sibling of the other `call.data` branches (the spec's design
notes, section 9, record the same reading of the source); the defect itself
is reported with the theorems about the platform branch.

The `create_thumbnail` branch `return`s at line 280 immediately after
rendering the image-prompt menu, so the image-generation code at lines
282-319 is unreachable from the dispatcher; those lines are embedded
separately as `thumbnailRest`. A failed or empty Gemini response raises,
is answered locally (lines 262, 390), re-raised, and answered again by the
outer handler (line 400), hence the two answer texts on those paths. -/
def handle_all_callbacks (st : Store) (chatId : Int) (cbdata : String)
    (gen : GenOutcome) (editOk : Bool) (now : String) : Store × CallbackEffects :=
  match st chatId with
  | none => (st, { answers := [sessionExpiredMsg] })
  | some session =>
    if cbdata = "generate_content" then
      (st, { edits := [platformMenu] })
    else if pyStartsWith "platform_" cbdata then
      if session.results.isEmpty then
        (st, { answers := [missingDataMsg] })
      else
        let prompt := initialPrompt session.results
        match gen with
        | .err => (st, { answers := [genFailedMsg, genericErrorMsg],
                         geminiPrompts := [prompt] })
        | .ok text =>
          if text = "" then
            (st, { answers := [genFailedMsg, genericErrorMsg],
                   geminiPrompts := [prompt] })
          else
            let st2 := setSession st chatId
              { session with content := some text, timestamp := now }
            if editOk then
              (st2, { edits := [contentEdit text], geminiPrompts := [prompt] })
            else
              (st2, { answers := [tooLongMsg], geminiPrompts := [prompt] })
    else if cbdata = "create_thumbnail" then
      (st, { edits := [thumbnailMenu] })
    else if cbdata = "regenerate" then
      if session.results.isEmpty then
        (st, { answers := [missingDataMsg] })
      else
        let prompt := regeneratePrompt session.results
        match gen with
        | .err => (st, { answers := [regenFailedMsg, genericErrorMsg],
                         geminiPrompts := [prompt] })
        | .ok text =>
          if text = "" then
            (st, { answers := [regenFailedMsg, genericErrorMsg],
                   geminiPrompts := [prompt] })
          else
            let st2 := setSession st chatId
              { session with content := some text, timestamp := now }
            if editOk then
              (st2, { edits := [revisedEdit text], geminiPrompts := [prompt] })
            else
              (st2, { answers := [regenTooLongMsg], geminiPrompts := [prompt] })
    else
      (st, { answers := [unknownCmdMsg] })

/-- The image-generation code of bot.py lines 282-319, which in the source
sits below the unconditional `return` at line 280 and is therefore
unreachable from the dispatcher; embedded verbatim as its own step. `reply`
answers the single `requests.post` made by `generate_image`; `sendOk` is
whether `bot.send_photo` succeeds (its `try/except` at lines 297-316). -/
def thumbnailRest (st : Store) (session : Session) (reply : HttpReply)
    (sendOk : Bool) : Store × CallbackEffects :=
  match session.content with
  | none => (st, { answers := [noContentMsg] })
  | some content =>
    if content = "" then
      (st, { answers := [noContentMsg] })
    else
      let image_prompt := "Social media thumbnail image for: " ++ pySlice content 500
      match generate_image reply with
      | some bytes =>
        if sendOk then
          (st, { photos := [{ payload := bytes,
                              caption := "*Your post is ready!*",
                              buttons := [.url "🐦 Twitter" "https://twitter.com/intent/tweet",
                                          .url "📸 Instagram" "https://www.instagram.com/"] }],
                 imagePrompts := [image_prompt] })
        else
          (st, { answers := [sendPhotoFailedMsg], imagePrompts := [image_prompt] })
      | none =>
        (st, { answers := [imageFailedMsg], imagePrompts := [image_prompt] })

/-- N successive `regenerate` callbacks against the dispatcher, the i-th
answered by the text provider with `ts[i]`. -/
def runRegenerates (st : Store) (chatId : Int) (editOk : Bool) (now : String) :
    List String → Store
  | [] => st
  | t :: ts =>
    runRegenerates
      (handle_all_callbacks st chatId "regenerate" (.ok t) editOk now).1
      chatId editOk now ts

/-- Fixture result record used by concrete witnesses. -/
def wRes : SearchResult := { title := "T", url := "U", content := "C" }

/-- Fixture session holding one result and previously generated content. -/
def wSession : Session :=
  { results := [wRes], search_query := "q", content := some "generated content",
    timestamp := "t" }

/-- Fixture session holding one result and no content yet. -/
def cSession : Session :=
  { results := [wRes], search_query := "rust vs go", content := none,
    timestamp := "t0" }

/-- Fixture result whose snippet makes the assembled context exactly 10000
characters long (the "Source 1:\n" label contributes 10). -/
def w5result : SearchResult :=
  { title := "T", url := "U", content := ⟨List.replicate 9990 'a'⟩ }

/-! ### Helper lemmas -/

theorem setSession_self (st : Store) (chatId : Int) (s : Session) :
    setSession st chatId s chatId = some s := by
  simp [setSession]

theorem setSession_other (st : Store) (chatId : Int) (s : Session) (c : Int)
    (h : c ≠ chatId) : setSession st chatId s c = st c := by
  simp [setSession, h]

theorem splitOnceAux_eq_none (sep : Char) (l : List Char)
    (h : ∀ c ∈ l, c ≠ sep) : splitOnceAux sep l = none := by
  induction l with
  | nil => rfl
  | cons c cs ih =>
    rw [splitOnceAux]
    rw [if_neg (h c (List.mem_cons_self c cs))]
    rw [ih fun x hx => h x (List.mem_cons_of_mem c hx)]

theorem isEmpty_eq_false_of_ne_nil {α : Type} {l : List α} (h : l ≠ []) :
    l.isEmpty = false := by
  cases l with
  | nil => exact absurd rfl h
  | cons a t => rfl

/-! ### Claims -/

/-- C3: for every chat with no session in the store, every callback — whatever
its data — is answered only with the session-expired notice, no provider
(text-generation or image) is called, nothing is rendered, and the session
store is returned unchanged. -/
theorem spec_C3 (st : Store) (chatId : Int) (cbdata : String) (gen : GenOutcome)
    (editOk : Bool) (now : String) (h : st chatId = none) :
    handle_all_callbacks st chatId cbdata gen editOk now =
      (st, { answers := [sessionExpiredMsg] }) := by
  unfold handle_all_callbacks
  rw [h]

/-- C3 witness: a concrete callback on an empty store is rejected with the
session-expired notice and an unchanged store. -/
theorem spec_C3_witness :
    handle_all_callbacks emptyStore 1 "regenerate" (.ok "x") true "t" =
      (emptyStore, { answers := [sessionExpiredMsg] }) :=
  spec_C3 emptyStore 1 "regenerate" (.ok "x") true "t" rfl

/-- C4: the Search Gateway returns exactly the first 25 provider records in
original order when more than 25 arrive, and the whole list unmodified
otherwise. -/
theorem spec_C4 (resp : List SearchResult) :
    (25 < resp.length →
      cappedResults resp = resp.take 25 ∧
      (cappedResults resp).length = 25 ∧
      ∀ i, i < 25 → (cappedResults resp)[i]? = resp[i]?) ∧
    (resp.length ≤ 25 → cappedResults resp = resp) := by
  constructor
  · intro h
    refine ⟨rfl, ?_, ?_⟩
    · rw [cappedResults, List.length_take]
      omega
    · intro i hi
      rw [cappedResults, List.getElem?_take, if_pos hi]
  · intro h
    rw [cappedResults, List.take_of_length_le h]

/-- C4 witness: a 26-record response is capped to its first 25 records in
order, and a 1-record response is returned unmodified. -/
theorem spec_C4_witness :
    (cappedResults (List.replicate 26 wRes) = (List.replicate 26 wRes).take 25 ∧
      (cappedResults (List.replicate 26 wRes)).length = 25 ∧
      ∀ i, i < 25 →
        (cappedResults (List.replicate 26 wRes))[i]? = (List.replicate 26 wRes)[i]?) ∧
    cappedResults [wRes] = [wRes] :=
  ⟨(spec_C4 (List.replicate 26 wRes)).1 (by decide),
   (spec_C4 [wRes]).2 (by decide)⟩

/-- C6: a search whose provider response holds zero results only reports the
empty-result notice; the session store is returned unchanged, so no session
is created and a prior session is left untouched. -/
theorem spec_C6 (st : Store) (chatId : Int) (text : String) (now : String)
    (pre rest : String) (h : pySplitOnce ' ' text = some (pre, rest)) :
    handle_search st chatId text (.ok []) now =
      (st, { searchCalled := true, sentMessages := [searchingMsg],
             replies := [noResultsMsg] }) := by
  unfold handle_search
  rw [h]
  rfl

/-- C6 witness: an empty provider response for a concrete query, against a
store already holding a session for the chat, leaves that store intact. -/
theorem spec_C6_witness :
    handle_search (setSession emptyStore 1 wSession) 1 "/search rust vs go"
        (.ok []) "t9" =
      (setSession emptyStore 1 wSession,
       { searchCalled := true, sentMessages := [searchingMsg],
         replies := [noResultsMsg] }) :=
  spec_C6 (setSession emptyStore 1 wSession) 1 "/search rust vs go" "t9"
    "/search" "rust vs go" (by decide)

/-- C10 as stated is false: the message text `"/search "` (a single trailing
space) contains no second whitespace-separated segment — splitting on spaces
and dropping empty pieces leaves exactly one segment — yet `handle_search`
does reach the search-provider call instead of replying with the usage
notice, because `text.split(' ', 1)` yields a second (empty) piece. -/
theorem spec_C10_counterexample :
    ((("/search ").data.splitOnP fun c => c = ' ').filter fun l => l ≠ []).length = 1 ∧
    (handle_search emptyStore 1 "/search " (.ok []) "t").2.searchCalled = true := by
  constructor
  · decide
  · rfl

/-- C10 (amended): for every `/search` message whose text contains no space
character at all — so `text.split(' ', 1)` has no second piece and indexing
`[1]` raises IndexError — the handler replies only with the usage notice,
makes no search-provider call, and returns the session store unchanged. -/
theorem spec_C10_amended (st : Store) (chatId : Int) (text : String)
    (outcome : SearchOutcome) (now : String) (h : ∀ c ∈ text.data, c ≠ ' ') :
    handle_search st chatId text outcome now = (st, { replies := [usageMsg] }) := by
  unfold handle_search
  rw [pySplitOnce, splitOnceAux_eq_none ' ' text.data h]

/-- C10 witness: the bare command `"/search"` yields the usage notice, no
provider call, and an unchanged store. -/
theorem spec_C10_witness :
    handle_search emptyStore 1 "/search" (.ok [wRes]) "t" =
      (emptyStore, { replies := [usageMsg] }) :=
  spec_C10_amended emptyStore 1 "/search" (.ok [wRes]) "t" (by decide)

/-- C1: contrary to the claim, a prompt-choice callback (`default_prompt`,
rendered by the `create_thumbnail` branch) never reaches the Image Generator:
the `create_thumbnail` branch returns at bot.py line 280 before the
image-generation code, no dispatcher branch matches `default_prompt` or
`custom_prompt`, so the callback falls through to the unknown-command answer
with no image-provider call and no photo — even for a chat whose session has
generated content. -/
theorem spec_C1_bug :
    handle_all_callbacks (setSession emptyStore 1 wSession) 1 "default_prompt"
        (.ok "x") true "t2" =
      (setSession emptyStore 1 wSession, { answers := [unknownCmdMsg] }) := by
  rfl

/-- C2: the behavior the claim describes, proved of the dispatcher with the
`platform_` branch at its intended position (see the note on
`handle_all_callbacks`: in the source that branch is mis-indented at line 192
and the file does not parse, so the committed code can never run it). With a
stored session holding one result, the `platform_twitter` callback calls the
text provider with the initial-mode prompt built from the stored results,
stores the returned text as the session's content, and renders it with the
regenerate/post buttons. -/
theorem spec_C2_intended :
    (handle_all_callbacks (setSession emptyStore 1 cSession) 1 "platform_twitter"
        (.ok "Tweet: sample") true "t1").1 1 =
      some { results := [wRes], search_query := "rust vs go",
             content := some "Tweet: sample", timestamp := "t1" } ∧
    (handle_all_callbacks (setSession emptyStore 1 cSession) 1 "platform_twitter"
        (.ok "Tweet: sample") true "t1").2.geminiPrompts =
      [initialPrompt [wRes]] ∧
    (handle_all_callbacks (setSession emptyStore 1 cSession) 1 "platform_twitter"
        (.ok "Tweet: sample") true "t1").2.edits =
      [contentEdit "Tweet: sample"] := by
  refine ⟨rfl, rfl, rfl⟩

/-- C9: `generate_image` yields no image bytes on every non-success status
and on a transport error, and returns the raw body bytes unparsed on status
200; on a failed generation the (unreachable, see C1) controller flow
answers only the image-failure notice, sends no photo, and returns the store
— hence the session's content — unchanged. -/
theorem spec_C9 :
    (∀ (status : Nat) (body : ImageBytes), status ≠ 200 →
      generate_image (.resp status body) = none) ∧
    generate_image .timeoutOrError = none ∧
    (∀ body : ImageBytes, generate_image (.resp 200 body) = some body) ∧
    (∀ (st : Store) (sess : Session) (content : String) (reply : HttpReply)
       (sendOk : Bool),
       sess.content = some content → content ≠ "" →
       generate_image reply = none →
       thumbnailRest st sess reply sendOk =
         (st, { answers := [imageFailedMsg],
                imagePrompts :=
                  ["Social media thumbnail image for: " ++ pySlice content 500] })) := by
  refine ⟨?_, rfl, ?_, ?_⟩
  · intro status body h
    rw [generate_image, if_neg h]
  · intro body
    rfl
  · intro st sess content reply sendOk hc hne himg
    unfold thumbnailRest
    rw [hc]
    simp only [if_neg hne, himg]

/-- C9 witness: a concrete HTTP 503 reply yields no bytes; the thumbnail
flow run on it answers the failure notice, sends no photo, and leaves the
store (with its stored content) unchanged; a 200 reply returns its raw
body. -/
theorem spec_C9_witness :
    generate_image (.resp 503 [7]) = none ∧
    generate_image (.resp 200 [7]) = some [7] ∧
    thumbnailRest (setSession emptyStore 1 wSession) wSession (.resp 503 [7]) true =
      (setSession emptyStore 1 wSession,
       { answers := [imageFailedMsg],
         imagePrompts :=
           ["Social media thumbnail image for: " ++ pySlice "generated content" 500] }) :=
  ⟨spec_C9.1 503 [7] (by decide),
   spec_C9.2.2.1 [7],
   spec_C9.2.2.2 (setSession emptyStore 1 wSession) wSession "generated content"
     (.resp 503 [7]) true rfl (by decide) (by decide)⟩

/-- C5: in both the initial and the regenerate mode, the context string
assembled from the results (each snippet under a "Source N" label, joined in
order) is embedded in the prompt truncated to its first 5000 characters: the
embedded segment is exactly the first min(5000, length) characters of the
assembled context, its length never exceeds 5000, and when the assembled
concatenation has exactly 10000 characters the segment is exactly the first
5000 of them. -/
theorem spec_C5 (results : List SearchResult) :
    initialPrompt results =
      initialTemplateA ++ pySlice (buildContext results) 5000 ++ initialTemplateB ∧
    regeneratePrompt results =
      regenTemplateA ++ pySlice (buildContext results) 5000 ++ regenTemplateB ∧
    (pySlice (buildContext results) 5000).data =
      (buildContext results).data.take 5000 ∧
    (pySlice (buildContext results) 5000).data.length ≤ 5000 ∧
    ((buildContext results).data.length = 10000 →
      (pySlice (buildContext results) 5000).data.length = 5000) := by
  refine ⟨rfl, rfl, rfl, ?_, ?_⟩
  · show ((buildContext results).data.take 5000).length ≤ 5000
    rw [List.length_take]
    exact min_le_left _ _
  · intro h
    show ((buildContext results).data.take 5000).length = 5000
    rw [List.length_take, h]
    omega

/-- C5 witness: a result list whose assembled context has exactly 10000
characters yields a prompt context segment of exactly the first 5000. -/
theorem spec_C5_witness :
    (pySlice (buildContext [w5result]) 5000).data.length = 5000 :=
  (spec_C5 [w5result]).2.2.2.2 (by
    show ("Source 1:\n".data ++ List.replicate 9990 'a').length = 10000
    rw [List.length_append, List.length_replicate]
    rfl)

/-- One successful regenerate callback overwrites the stored content in
place: the store afterwards maps the chat to the same session with only
`content` and `timestamp` replaced. -/
theorem regenerate_step (st : Store) (chatId : Int) (sess : Session) (t : String)
    (editOk : Bool) (now : String) (hs : st chatId = some sess)
    (hr : sess.results ≠ []) (ht : t ≠ "") :
    (handle_all_callbacks st chatId "regenerate" (.ok t) editOk now).1 =
      setSession st chatId { sess with content := some t, timestamp := now } := by
  unfold handle_all_callbacks
  cases hst : st chatId with
  | none =>
    rw [hst] at hs
    exact Option.noConfusion hs
  | some sess2 =>
    rw [hst] at hs
    obtain rfl : sess2 = sess := Option.some_inj.mp hs
    dsimp only
    split
    · next hcond => exact absurd hcond (by decide)
    · split
      · next hcond => exact absurd hcond (by decide)
      · split
        · next hcond => exact absurd hcond (by decide)
        · split
          · split
            · next hcond => exact absurd (List.isEmpty_iff.mp hcond) hr
            · cases editOk <;> rfl
          · next hcond => exact absurd rfl hcond

/-- C7: after N ≥ 1 successful regenerate callbacks the chat's session holds
exactly one content value (the `content` field is a single optional slot) and
it equals the text returned by the most recent generation; earlier contents
are overwritten, never accumulated. -/
theorem spec_C7 (chatId : Int) (editOk : Bool) (now : String) (ts : List String) :
    ∀ (st : Store) (sess : Session), st chatId = some sess → sess.results ≠ [] →
      ts ≠ [] → (∀ t ∈ ts, t ≠ "") →
      runRegenerates st chatId editOk now ts chatId =
        some { sess with content := some (ts.getLastD ""), timestamp := now } := by
  induction ts with
  | nil =>
    intro st sess _ _ hts _
    exact absurd rfl hts
  | cons t ts ih =>
    intro st sess hs hr _ hall
    rw [runRegenerates,
        regenerate_step st chatId sess t editOk now hs hr
          (hall t (List.mem_cons_self t ts))]
    cases ts with
    | nil =>
      rw [runRegenerates, setSession_self]
      rfl
    | cons t2 ts2 =>
      rw [ih (setSession st chatId { sess with content := some t, timestamp := now })
            { sess with content := some t, timestamp := now }
            (setSession_self st chatId _) hr (List.cons_ne_nil t2 ts2)
            (fun x hx => hall x (List.mem_cons_of_mem t hx))]
      simp only [List.getLastD_cons]

/-- C7 witness: two successive successful regenerations leave exactly the
second generated text as the stored content. -/
theorem spec_C7_witness :
    runRegenerates (setSession emptyStore 1 cSession) 1 true "t9"
        ["first draft", "second draft"] 1 =
      some { results := [wRes], search_query := "rust vs go",
             content := some "second draft", timestamp := "t9" } :=
  spec_C7 1 true "t9" ["first draft", "second draft"]
    (setSession emptyStore 1 cSession) cSession (by decide) (by decide)
    (by decide) (by decide)

/-- Updating a stored session with a record that keeps its `results` leaves
every chat's stored `results` unchanged. -/
theorem store_results_after_set (st : Store) (chatId : Int) (sess s2 : Session)
    (hst : st chatId = some sess) (hres : s2.results = sess.results) (c : Int) :
    (setSession st chatId s2 c).map Session.results = (st c).map Session.results := by
  by_cases hc : c = chatId
  · subst hc
    rw [setSession_self, hst]
    simp [hres]
  · rw [setSession_other st chatId s2 c hc]

/-- C8: (i) a subsequent successful search overwrites the chat's session
wholesale — the stored record is rebuilt from the new response with the
`content` field absent, so any prior content is dropped, not merged; (ii) the
callback dispatcher (generate, platform, regenerate, thumbnail-menu, unknown
branches alike) never changes the stored `results` of any chat — it only
reads them; (iii) the thumbnail flow returns the store unchanged. -/
theorem spec_C8 :
    (∀ (st : Store) (chatId : Int) (text : String) (resp : List SearchResult)
       (now : String) (pre rest : String),
       pySplitOnce ' ' text = some (pre, rest) → cappedResults resp ≠ [] →
       (handle_search st chatId text (.ok resp) now).1 chatId =
         some { results := cappedResults resp, search_query := pyStrip rest,
                content := none, timestamp := now }) ∧
    (∀ (st : Store) (chatId : Int) (cbdata : String) (gen : GenOutcome)
       (editOk : Bool) (now : String) (c : Int),
       ((handle_all_callbacks st chatId cbdata gen editOk now).1 c).map Session.results =
         (st c).map Session.results) ∧
    (∀ (st : Store) (sess : Session) (reply : HttpReply) (sendOk : Bool),
       (thumbnailRest st sess reply sendOk).1 = st) := by
  refine ⟨?_, ?_, ?_⟩
  · intro st chatId text resp now pre rest h hne
    unfold handle_search
    rw [h]
    dsimp only
    rw [isEmpty_eq_false_of_ne_nil hne]
    rw [if_neg (by decide : ¬ (false = true))]
    exact setSession_self st chatId _
  · intro st chatId cbdata gen editOk now c
    unfold handle_all_callbacks
    cases hst : st chatId with
    | none => rfl
    | some sess =>
      dsimp only
      split
      · rfl
      · split
        · split
          · rfl
          · cases gen with
            | err => rfl
            | ok text =>
              dsimp only
              split
              · rfl
              · split
                · exact store_results_after_set st chatId sess
                    { sess with content := some text, timestamp := now } hst rfl c
                · exact store_results_after_set st chatId sess
                    { sess with content := some text, timestamp := now } hst rfl c
        · split
          · rfl
          · split
            · split
              · rfl
              · cases gen with
                | err => rfl
                | ok text =>
                  dsimp only
                  split
                  · rfl
                  · split
                    · exact store_results_after_set st chatId sess
                        { sess with content := some text, timestamp := now } hst rfl c
                    · exact store_results_after_set st chatId sess
                        { sess with content := some text, timestamp := now } hst rfl c
            · rfl
  · intro st sess reply sendOk
    unfold thumbnailRest
    cases sess.content with
    | none => rfl
    | some content =>
      dsimp only
      split
      · rfl
      · cases generate_image reply with
        | none => rfl
        | some bytes => cases sendOk <;> rfl

/-- C8 witness: a successful search against a store already holding a session
with generated content for the chat replaces the record wholesale — the new
session's content slot is empty. -/
theorem spec_C8_witness :
    (handle_search (setSession emptyStore 1 wSession) 1 "/search rust vs go"
        (.ok [wRes]) "t5").1 1 =
      some { results := cappedResults [wRes], search_query := pyStrip "rust vs go",
             content := none, timestamp := "t5" } :=
  spec_C8.1 (setSession emptyStore 1 wSession) 1 "/search rust vs go" [wRes] "t5"
    "/search" "rust vs go" (by decide) (by decide)

end DelveBot
